import Mathlib

/-!
Verification of the shooting-and-telemetry core of yandex-tank:
the BFG gun measurement scope (`yandextank/plugins/Bfg/guns.py`) and the
shared file multiplexer (`yandextank/common/util.py`), shallowly embedded.

Wall-clock readings of `time.time()` are modelled as natural numbers of
microseconds, so the source expression `int((time.time() - start_time) * 1e6)`
becomes plain subtraction of the two readings.
-/

namespace YandexTank

/-- The measurement record created by `AbstractGun.measure` (guns.py lines
31-44).  `interval_real` starts as Python `None`, modelled as `Option`. -/
structure DataItem where
  send_ts : Nat
  tag : String
  interval_real : Option Int
  connect_time : Int
  send_time : Int
  latency : Int
  receive_time : Int
  interval_event : Int
  size_out : Int
  size_in : Int
  net_code : Int
  proto_code : Int
deriving Repr, DecidableEq

/-- The bounded result channel (`self.results`, a `queue.Queue`): a fixed
capacity and the records currently queued. -/
structure ResultsQueue where
  capacity : Nat
  items : List DataItem
deriving Repr, DecidableEq

/-- Source `queue.Queue.put(item, block=False)`: append when below capacity,
otherwise raise `Full` (modelled as the `false` flag; guns.py catches it,
logs "Results full. Data corrupted" and drops the record). -/
def ResultsQueue.put_nowait (q : ResultsQueue) (d : DataItem) :
    ResultsQueue × Bool :=
  if q.items.length < q.capacity then
    ({ q with items := q.items ++ [d] }, true)
  else
    (q, false)

/-- Outcome of running a gun body inside the measurement scope: the body
either returns normally or raises an exception of type `ε`; in both cases it
may have mutated the record, whose state at exit is carried along. -/
inductive BodyResult (ε : Type) where
  | ok (d : DataItem)
  | err (e : ε) (d : DataItem)
deriving Repr, DecidableEq

/-- The record held by a `BodyResult` at body exit. -/
def BodyResult.exitItem : BodyResult ε → DataItem
  | .ok d => d
  | .err _ d => d

/-- Everything observable when the measurement scope closes. -/
structure MeasureResult (ε : Type) where
  /-- The exception re-raised to the caller (`raise` in guns.py line 53);
  `none` when the body succeeded. -/
  raised : Option ε
  /-- The finalized record handed to the result channel. -/
  record : DataItem
  /-- The result channel after the non-blocking put. -/
  queue : ResultsQueue
  /-- `false` when the channel was full: the record was dropped and
  "Results full. Data corrupted" logged. -/
  accepted : Bool
deriving Repr, DecidableEq

/-- guns.py lines 31-44: the record as initialized at scope entry. -/
def initDataItem (start_time : Nat) (marker : String) : DataItem :=
  { send_ts := start_time
    tag := marker
    interval_real := none
    connect_time := 0
    send_time := 0
    latency := 0
    receive_time := 0
    interval_event := 0
    size_out := 0
    size_in := 0
    net_code := 0
    proto_code := 200 }

/-- guns.py lines 55-57: in the `finally` block, a record whose
`interval_real` is still `None` gets the elapsed wall time in microseconds. -/
def finalizeInterval (d : DataItem) (start_time now : Nat) : DataItem :=
  match d.interval_real with
  | none => { d with interval_real := some ((now - start_time : Nat) : Int) }
  | some _ => d

/-- Source `AbstractGun.measure` (guns.py lines 28-61).  `start_time` and `now` are
the two `time.time()` readings in microseconds; `body` is the code executed
while the context manager has yielded `data_item`.

On exception (lines 47-53): the warning is logged, `proto_code` is forced
from 200 to 500, and line 52 reads `data_item["net_code"] == 1` — an equality
test whose value is discarded, not an assignment — so `net_code` is left
unchanged; the exception is then re-raised.  The `finally` block (lines
54-61) backfills `interval_real` and does the non-blocking put in both
paths. -/
def measure (marker : String) (start_time now : Nat)
    (body : DataItem → BodyResult ε) (results : ResultsQueue) :
    MeasureResult ε :=
  let d0 := initDataItem start_time marker
  match body d0 with
  | .ok d =>
      let d := finalizeInterval d start_time now
      let qr := results.put_nowait d
      { raised := none, record := d, queue := qr.1, accepted := qr.2 }
  | .err e d =>
      let d := if d.proto_code = 200 then { d with proto_code := 500 } else d
      -- line 51 `if data_item["net_code"] == 0:` guards line 52
      -- `data_item["net_code"] == 1`, a no-op comparison: no update happens
      let d := finalizeInterval d start_time now
      let qr := results.put_nowait d
      { raised := some e, record := d, queue := qr.1, accepted := qr.2 }

theorem finalizeInterval_isSome (d : DataItem) (s n : Nat) :
    (finalizeInterval d s n).interval_real.isSome = true := by
  cases h : d.interval_real <;> simp [finalizeInterval, h]

theorem finalizeInterval_of_none (d : DataItem) (s n : Nat)
    (h : d.interval_real = none) :
    (finalizeInterval d s n).interval_real = some ((n - s : Nat) : Int) := by
  simp [finalizeInterval, h]

theorem measure_queue_spec (marker : String) (start_time now : Nat)
    (body : DataItem → BodyResult ε) (q : ResultsQueue) :
    (measure marker start_time now body q).queue =
      (q.put_nowait (measure marker start_time now body q).record).1 ∧
    (measure marker start_time now body q).accepted =
      (q.put_nowait (measure marker start_time now body q).record).2 := by
  cases hb : body (initDataItem start_time marker) with
  | ok d => simp [measure, hb]
  | err e d => simp [measure, hb]

theorem put_nowait_full (q : ResultsQueue) (d : DataItem)
    (h : q.capacity ≤ q.items.length) : q.put_nowait d = (q, false) := by
  simp [ResultsQueue.put_nowait, Nat.not_lt.mpr h]

theorem put_nowait_accepts (q : ResultsQueue) (d : DataItem)
    (h : q.items.length < q.capacity) :
    q.put_nowait d = ({ q with items := q.items ++ [d] }, true) := by
  simp [ResultsQueue.put_nowait, h]

/-- C1 (code bug evidence): for a shot whose body raises while `proto_code`
is still 200 and `net_code` still 0, the scope re-raises the exception and
forces `proto_code` to 500, but the emitted record's `net_code` is 0, not 1:
guns.py line 52 reads `data_item["net_code"] == 1`, an equality comparison
whose value is discarded instead of an assignment, so the transport-error
sentinel claimed by the spec is never written. -/
theorem measure_raise_net_code_unchanged :
    (measure "m" 0 7 (fun d => BodyResult.err 42 d) ⟨10, []⟩).raised = some 42 ∧
    (measure "m" 0 7 (fun d => BodyResult.err 42 d) ⟨10, []⟩).record.proto_code = 500 ∧
    (measure "m" 0 7 (fun d => BodyResult.err 42 d) ⟨10, []⟩).record.net_code = 0 := by
  decide

/-- C4: when the measurement scope exits — whether the body succeeded or
raised — a record whose `interval_real` was never assigned inside the body
gets the elapsed wall time `now - start_time` in microseconds, and
`interval_real` is never null in the emitted record. -/
theorem measure_interval_real_total (marker : String) (start_time now : Nat)
    (body : DataItem → BodyResult ε) (q : ResultsQueue) :
    (measure marker start_time now body q).record.interval_real.isSome = true ∧
    ((body (initDataItem start_time marker)).exitItem.interval_real = none →
      (measure marker start_time now body q).record.interval_real =
        some ((now - start_time : Nat) : Int)) := by
  cases hb : body (initDataItem start_time marker) with
  | ok d =>
      refine ⟨by simp [measure, hb, finalizeInterval_isSome], fun h => ?_⟩
      simp only [BodyResult.exitItem] at h
      simp [measure, hb, finalizeInterval_of_none _ _ _ h]
  | err e d =>
      refine ⟨by simp [measure, hb, finalizeInterval_isSome], fun h => ?_⟩
      simp only [BodyResult.exitItem] at h
      have h2 : (if d.proto_code = 200 then { d with proto_code := 500 }
          else d).interval_real = none := by
        split <;> simpa using h
      simp [measure, hb, finalizeInterval_of_none _ _ _ h2]

theorem measure_interval_real_total_witness :
    ((fun d => BodyResult.ok (ε := Unit) d)
        (initDataItem 0 "w")).exitItem.interval_real = none ∧
    (measure "w" 0 3 (fun d => BodyResult.ok (ε := Unit) d)
        ⟨1, []⟩).record.interval_real = some ((3 - 0 : Nat) : Int) :=
  ⟨rfl,
    (measure_interval_real_total "w" 0 3 (fun d => BodyResult.ok d) ⟨1, []⟩).2 rfl⟩

/-- C5: the completed record is offered to the result channel with a
non-blocking put (`block=False`): when the channel is full the record is
dropped (the queue is unchanged and the `Full` exception is caught and
logged), and otherwise the record is appended — the producer never waits
for channel capacity. -/
theorem measure_nonblocking_put (marker : String) (start_time now : Nat)
    (body : DataItem → BodyResult ε) (q : ResultsQueue) :
    (q.capacity ≤ q.items.length →
      (measure marker start_time now body q).queue = q ∧
      (measure marker start_time now body q).accepted = false) ∧
    (q.items.length < q.capacity →
      (measure marker start_time now body q).queue.items =
        q.items ++ [(measure marker start_time now body q).record] ∧
      (measure marker start_time now body q).accepted = true) := by
  obtain ⟨hq, ha⟩ := measure_queue_spec marker start_time now body q
  constructor
  · intro h
    rw [hq, ha, put_nowait_full _ _ h]
    exact ⟨rfl, rfl⟩
  · intro h
    rw [hq, ha, put_nowait_accepts _ _ h]
    exact ⟨rfl, rfl⟩

theorem measure_nonblocking_put_witness :
    ((⟨0, []⟩ : ResultsQueue).capacity ≤ (⟨0, []⟩ : ResultsQueue).items.length ∧
      (measure "w" 0 3 (fun d => BodyResult.ok (ε := Unit) d) ⟨0, []⟩).queue =
        ⟨0, []⟩ ∧
      (measure "w" 0 3 (fun d => BodyResult.ok (ε := Unit) d)
        ⟨0, []⟩).accepted = false) ∧
    ((⟨1, []⟩ : ResultsQueue).items.length < (⟨1, []⟩ : ResultsQueue).capacity ∧
      (measure "w" 0 3 (fun d => BodyResult.ok (ε := Unit) d) ⟨1, []⟩).queue.items =
        ([] : List DataItem) ++
          [(measure "w" 0 3 (fun d => BodyResult.ok (ε := Unit) d) ⟨1, []⟩).record] ∧
      (measure "w" 0 3 (fun d => BodyResult.ok (ε := Unit) d)
        ⟨1, []⟩).accepted = true) := by
  have h1 := (measure_nonblocking_put (ε := Unit) "w" 0 3
    (fun d => BodyResult.ok d) ⟨0, []⟩).1 (by decide)
  have h2 := (measure_nonblocking_put (ε := Unit) "w" 0 3
    (fun d => BodyResult.ok d) ⟨1, []⟩).2 (by decide)
  exact ⟨⟨by decide, h1.1, h1.2⟩, ⟨by decide, h2.1, h2.2⟩⟩

/-! ## SQL gun (guns.py 118-154) -/

/-- Outcome of `self.engine.execute(...)` / `fetchall` / `close` for one SQL
shot, matching the `except` arms of `SqlGun.shoot` (guns.py 139-152). -/
inductive SqlOutcome where
  | success
  | timeoutError
  | resourceClosedError
  | sqlAlchemyError
  | saWarning
  | otherError
deriving Repr, DecidableEq

/-- Source `SqlGun.shoot` (guns.py 130-154): runs the statement in a measurement
scope; `errno` starts at 0 and `proto_code` at 200, each `except` arm
reclassifies (`TimeoutError` sets `errno = 110`; `ResourceClosedError` is
only logged; `SQLAlchemyError` and the bare `Exception` arm set
`proto_code = 500`; `SAWarning` sets `proto_code = 400`); finally both are
written into the record.  Every exception is caught, so the body never
raises out of the scope. -/
def SqlGun.shoot (outcome : SqlOutcome) (marker : String) (start_time now : Nat)
    (q : ResultsQueue) : MeasureResult Empty :=
  measure marker start_time now (fun di =>
    let errno : Int :=
      match outcome with
      | .timeoutError => 110
      | _ => 0
    let proto : Int :=
      match outcome with
      | .sqlAlchemyError => 500
      | .saWarning => 400
      | .otherError => 500
      | _ => 200
    .ok { di with proto_code := proto, net_code := errno }) q

/-- C6: a driver-level timeout yields `net_code = 110` with `proto_code`
left at 200; a generic driver error yields `proto_code = 500`; a warning
yields `proto_code = 400`; a resource-already-closed condition leaves both
codes at their defaults (200 / 0). -/
theorem sql_gun_codes (marker : String) (start_time now : Nat)
    (q : ResultsQueue) :
    ((SqlGun.shoot .timeoutError marker start_time now q).record.net_code = 110 ∧
     (SqlGun.shoot .timeoutError marker start_time now q).record.proto_code = 200) ∧
    (SqlGun.shoot .sqlAlchemyError marker start_time now q).record.proto_code = 500 ∧
    (SqlGun.shoot .saWarning marker start_time now q).record.proto_code = 400 ∧
    ((SqlGun.shoot .resourceClosedError marker start_time now q).record.net_code = 0 ∧
     (SqlGun.shoot .resourceClosedError marker start_time now q).record.proto_code = 200) :=
  ⟨⟨rfl, rfl⟩, rfl, rfl, rfl, rfl⟩

/-! ## HTTP gun (guns.py 98-115) -/

/-- Outcome of `requests.get(self.base_address + missile, verify=False)`:
either a response carrying a status code, or `requests.ConnectionError`. -/
inductive HttpOutcome where
  | response (status_code : Int)
  | connectionError
deriving Repr, DecidableEq

/-- Result of one HTTP shot: the URL the GET was issued against and the
measurement outcome. -/
structure HttpShootResult where
  url : String
  result : MeasureResult Empty
deriving Repr, DecidableEq

/-- Source `HttpGun.shoot` (guns.py 105-115): inside a measurement scope, issue a
GET to `base_address + missile`; on a response set
`proto_code = r.status_code`; on `ConnectionError` set `net_code = 1` and
`proto_code = 500` (both inside a `try`, so the body never raises out of
the scope). -/
def HttpGun.shoot (base_address missile : String) (outcome : HttpOutcome)
    (marker : String) (start_time now : Nat) (q : ResultsQueue) :
    HttpShootResult :=
  { url := base_address ++ missile
    result := measure marker start_time now (fun di =>
      match outcome with
      | .response s => .ok { di with proto_code := s }
      | .connectionError => .ok { di with net_code := 1, proto_code := 500 }) q }

/-- C9: the GET goes to `base_address + payload`; a response with status `s`
yields `proto_code = s` and `net_code = 0` (so a 503 response yields
`proto_code = 503`), and a connection failure yields `net_code = 1` and
`proto_code = 500`. -/
theorem http_gun_shoot_spec (base_address missile marker : String)
    (start_time now : Nat) (q : ResultsQueue) :
    (∀ outcome, (HttpGun.shoot base_address missile outcome marker
        start_time now q).url = base_address ++ missile) ∧
    (∀ s : Int,
      (HttpGun.shoot base_address missile (.response s) marker
          start_time now q).result.record.proto_code = s ∧
      (HttpGun.shoot base_address missile (.response s) marker
          start_time now q).result.record.net_code = 0) ∧
    ((HttpGun.shoot base_address missile .connectionError marker
        start_time now q).result.record.net_code = 1 ∧
     (HttpGun.shoot base_address missile .connectionError marker
        start_time now q).result.record.proto_code = 500) :=
  ⟨fun _ => rfl, fun _ => ⟨rfl, rfl⟩, rfl, rfl⟩

/-! ## Configuration accessor (guns.py 73-80) -/

/-- A gun's configuration: an association of option keys to values. -/
abbrev GunConfig := List (String × String)

/-- Modelled from the spec: `AbstractPlugin.get_option` lives in
`yandextank/common/interfaces.py`, which is not among the sources here; per
the spec's configuration interface it is the typed per-gun option lookup,
raising `KeyError` (the `Except.error`, carrying the key) when the key is
absent from the configuration. -/
def abstractPluginGetOption (cfg : GunConfig) (key : String) :
    Except String String :=
  match cfg.lookup key with
  | some v => .ok v
  | none => .error key

/-- What `AbstractGun.get_option` produces: a value, or a raised
`GunConfigError` with its message. -/
inductive GetOptionResult where
  | value (v : String)
  | gunConfigError (msg : String)
deriving Repr, DecidableEq

/-- Source `AbstractGun.get_option` (guns.py 73-80): delegate to the superclass
accessor; on `KeyError`, return `default_value` when one was supplied
(`default_value is not None`), else raise `GunConfigError('Missing key: %s')`. -/
def AbstractGun.get_option (cfg : GunConfig) (key : String)
    (default_value : Option String) : GetOptionResult :=
  match abstractPluginGetOption cfg key with
  | .ok v => .value v
  | .error _ =>
      match default_value with
      | some d => .value d
      | none => .gunConfigError ("Missing key: " ++ key)

/-- C8: a present key returns its configured value whatever the default; an
absent key with an explicit default returns the default; an absent key with
no default raises `GunConfigError` naming the missing key. -/
theorem get_option_spec (cfg : GunConfig) (key : String) :
    (∀ v, cfg.lookup key = some v →
      ∀ dv, AbstractGun.get_option cfg key dv = .value v) ∧
    (cfg.lookup key = none →
      (∀ d, AbstractGun.get_option cfg key (some d) = .value d) ∧
      AbstractGun.get_option cfg key none =
        .gunConfigError ("Missing key: " ++ key)) := by
  constructor
  · intro v hv dv
    simp [AbstractGun.get_option, abstractPluginGetOption, hv]
  · intro h
    refine ⟨fun d => ?_, ?_⟩ <;>
      simp [AbstractGun.get_option, abstractPluginGetOption, h]

theorem get_option_spec_witness :
    (([("db", "x")] : GunConfig).lookup "db" = some "x" ∧
      AbstractGun.get_option [("db", "x")] "db" none = .value "x") ∧
    (([("db", "x")] : GunConfig).lookup "nope" = none ∧
      AbstractGun.get_option [("db", "x")] "nope" (some "d") = .value "d" ∧
      AbstractGun.get_option [("db", "x")] "nope" none =
        .gunConfigError ("Missing key: " ++ "nope")) := by
  refine ⟨⟨by decide, (get_option_spec [("db", "x")] "db").1 "x" (by decide) none⟩,
          ⟨by decide, ?_, ?_⟩⟩
  · exact ((get_option_spec [("db", "x")] "nope").2 (by decide)).1 "d"
  · exact ((get_option_spec [("db", "x")] "nope").2 (by decide)).2

/-! ## Scenario dispatch (guns.py 203-214 and 259-272) -/

/-- Python `marker.rsplit("#", 1)[0]`: everything before the last `#`, or the
whole string when it contains no `#`. -/
def rsplitHashHead (m : String) : String :=
  if '#' ∈ m.data then
    String.mk (((m.data.reverse.dropWhile (fun c => c ≠ '#')).drop 1).reverse)
  else m

/-- The marker normalisation shared by `ScenarioGun.shoot` (guns.py
204-206) and `UltimateGun.shoot` (guns.py 260-262):
`marker = marker.rsplit("#", 1)[0]` then `if not marker: marker =
"default"` (the empty string is the only falsy string). -/
def dispatchMarker (marker : String) : String :=
  let m := rsplitHashHead marker
  if m = "" then "default" else m

/-- Source `ScenarioGun.shoot` (guns.py 203-214).  `scenarios` models the loaded
module's `SCENARIOS` mapping from names to callables; a callable receives
the missile and the normalised marker and may push records through
`measure`, modelled as a transformation of the results queue (exceptions it
raises are caught and logged in guns.py 209-212, never re-raised).  Returns
the queue afterwards and whether a scenario was dispatched (`false` =
"Scenario not found" logged, shot skipped with nothing pushed). -/
def ScenarioGun.shoot
    (scenarios : String → Option (String → String → ResultsQueue → ResultsQueue))
    (missile marker : String) (q : ResultsQueue) : ResultsQueue × Bool :=
  let m := dispatchMarker marker
  match scenarios m with
  | some scenario => (scenario missile m q, true)
  | none => (q, false)

/-- Source `UltimateGun.shoot` (guns.py 259-272): same dispatch, but the scenario
is a method looked up on the loaded test object
(`getattr(self.load_test, marker, None)`, dispatched only when callable)
and called with the missile alone. -/
def UltimateGun.shoot
    (load_test : String → Option (String → ResultsQueue → ResultsQueue))
    (missile marker : String) (q : ResultsQueue) : ResultsQueue × Bool :=
  let m := dispatchMarker marker
  match load_test m with
  | some scenario => (scenario missile q, true)
  | none => (q, false)

theorem rsplitHashHead_append (pre suf : String) (h : '#' ∉ suf.data) :
    rsplitHashHead (pre ++ "#" ++ suf) = pre := by
  have hdata : (pre ++ "#" ++ suf).data = (pre.data ++ ['#']) ++ suf.data := by
    rw [String.data_append, String.data_append]
  have hmem : '#' ∈ (pre ++ "#" ++ suf).data := by
    rw [hdata]; simp
  have hdrop : List.dropWhile (fun c => c ≠ '#') suf.data.reverse = [] := by
    rw [List.dropWhile_eq_nil_iff]
    intro x hx
    have : x ∈ suf.data := List.mem_reverse.mp hx
    simp only [ne_eq, decide_eq_true_eq]
    exact fun he => h (he ▸ this)
  rw [rsplitHashHead, if_pos hmem, hdata]
  rw [List.reverse_append, List.reverse_append]
  simp only [List.reverse_cons, List.reverse_nil, List.nil_append,
    List.singleton_append]
  rw [List.dropWhile_append, hdrop]
  simp [List.dropWhile_cons]

/-- C2: in both the scenario gun and the ultimate gun, the marker is split
on its last `#` and the part before it selects the scenario
(`"checkout#3"` selects `"checkout"`); an empty marker selects the scenario
named `"default"`; and when the selected name matches no scenario the shot
is logged and skipped, leaving the results queue untouched (zero records
emitted). -/
theorem scenario_dispatch_spec :
    (∀ pre suf : String, '#' ∉ suf.data →
      dispatchMarker (pre ++ "#" ++ suf) =
        if pre = "" then "default" else pre) ∧
    dispatchMarker "checkout#3" = "checkout" ∧
    dispatchMarker "" = "default" ∧
    (∀ scenarios missile marker q,
      scenarios (dispatchMarker marker) = none →
      ScenarioGun.shoot scenarios missile marker q = (q, false)) ∧
    (∀ load_test missile marker q,
      load_test (dispatchMarker marker) = none →
      UltimateGun.shoot load_test missile marker q = (q, false)) := by
  refine ⟨fun pre suf h => ?_, by decide, by decide,
    fun scenarios missile marker q h => ?_, fun load_test missile marker q h => ?_⟩
  · rw [dispatchMarker, rsplitHashHead_append pre suf h]
  · simp [ScenarioGun.shoot, h]
  · simp [UltimateGun.shoot, h]

theorem scenario_dispatch_spec_witness :
    ('#' ∉ "3".data ∧
      dispatchMarker ("checkout" ++ "#" ++ "3") =
        if "checkout" = "" then "default" else "checkout") ∧
    ((fun _ : String =>
        (none : Option (String → String → ResultsQueue → ResultsQueue)))
          (dispatchMarker "m") = none ∧
      ScenarioGun.shoot (fun _ => none) "x" "m" ⟨1, []⟩ = (⟨1, []⟩, false)) ∧
    ((fun _ : String => (none : Option (String → ResultsQueue → ResultsQueue)))
          (dispatchMarker "m") = none ∧
      UltimateGun.shoot (fun _ => none) "x" "m" ⟨1, []⟩ = (⟨1, []⟩, false)) := by
  refine ⟨⟨by decide, scenario_dispatch_spec.1 "checkout" "3" (by decide)⟩,
    ⟨rfl, scenario_dispatch_spec.2.2.2.1 (fun _ => none) "x" "m" ⟨1, []⟩ rfl⟩,
    ⟨rfl, scenario_dispatch_spec.2.2.2.2 (fun _ => none) "x" "m" ⟨1, []⟩ rfl⟩⟩

/-! ## Shared file multiplexer (util.py 671-746) -/

/-- State of a `FileMultiReader`: the current content of `_opened_file`
(growing, appended to by an outside writer between calls), the `_is_locked`
flag, and the external stop event (`self.stop.is_set()`). -/
structure MultiReaderState where
  fileData : List Char
  is_locked : Bool
  stopSet : Bool
deriving Repr, DecidableEq

/-- Python `self._opened_file.read(_len)` after `seek(pos)`: the next `_len`
characters starting at `pos`. -/
def fileRead (data : List Char) (pos len : Nat) : List Char :=
  (data.drop pos).take len

/-- Python `self._opened_file.readline()` after `seek(pos)`: characters up to and
including the next newline, or to end of file. -/
def fileReadline (data : List Char) (pos : Nat) : List Char :=
  let rest := data.drop pos
  let line := rest.takeWhile (fun c => c ≠ '\n')
  line ++ (rest.drop line.length).take 1

/-- util.py line 709: read `_len` characters if `_len is not None` else read
a line. -/
def rawRead (data : List Char) (pos : Nat) (len? : Option Nat) : List Char :=
  match len? with
  | some l => fileRead data pos l
  | none => fileReadline data pos

/-- What one `read_with_lock` call can produce: a result (where `none` is
the Python `None` end-of-stream sentinel and `some s` a string, possibly
empty) together with `tell()`, or a propagated exception. -/
inductive ReadResult where
  | ok (result : Option String) (stop_pos : Nat)
  | ioError
  | lockTimeout
deriving Repr, DecidableEq

/-- Source `FileMultiReader.read_with_lock` (util.py 699-715): `wait_lock()`, then
in a `try` block seek to `pos`, read (`_len` characters or a line) and
`tell()`, with `finally: self.unlock()`; after the lock is released, an
empty result with the stop event set is replaced by `None`.

`ioRaises` models the underlying file object raising out of the
seek/read/tell inside the `try`; `lockTimeout` is `wait_lock` exhausting
its retry budget while the flag stays held (the flag is then still held by
its current owner). -/
def read_with_lock (st : MultiReaderState) (pos : Nat) (len? : Option Nat)
    (ioRaises : Bool) : ReadResult × MultiReaderState :=
  if st.is_locked then
    (.lockTimeout, st)
  else
    let stLocked := { st with is_locked := true }
    if ioRaises then
      (.ioError, { stLocked with is_locked := false })
    else
      let raw := rawRead st.fileData pos len?
      let stop_pos := pos + raw.length
      let stUnlocked := { stLocked with is_locked := false }
      let result : Option String :=
        if raw.isEmpty && st.stopSet then none else some (String.mk raw)
      (.ok result stop_pos, stUnlocked)

/-- Source `FileMultiReader.unlock` (util.py 726-727). -/
def unlock (st : MultiReaderState) : MultiReaderState :=
  { st with is_locked := false }

/-- C3: when a positioned read (fixed-length or line) returns no data, the
result is the `None` sentinel if the cooperative stop signal is set, and
the retryable empty string if it is not — two distinct values. -/
theorem read_with_lock_eof (st : MultiReaderState) (pos : Nat)
    (len? : Option Nat) (hlock : st.is_locked = false)
    (hraw : rawRead st.fileData pos len? = []) :
    (st.stopSet = true →
      (read_with_lock st pos len? false).1 = .ok none pos) ∧
    (st.stopSet = false →
      (read_with_lock st pos len? false).1 = .ok (some "") pos) ∧
    (some "" : Option String) ≠ none := by
  refine ⟨fun hstop => ?_, fun hstop => ?_, by decide⟩ <;>
    simp [read_with_lock, hlock, hraw, hstop]

theorem read_with_lock_eof_witness :
    (⟨['a'], false, true⟩ : MultiReaderState).is_locked = false ∧
    rawRead (⟨['a'], false, true⟩ : MultiReaderState).fileData 1 (some 5) = [] ∧
    (read_with_lock ⟨['a'], false, true⟩ 1 (some 5) false).1 = .ok none 1 := by
  refine ⟨rfl, by decide, ?_⟩
  exact (read_with_lock_eof ⟨['a'], false, true⟩ 1 (some 5) rfl (by decide)).1 rfl

/-- C10: a `read_with_lock` call that acquires the lock always leaves the
`_is_locked` flag `False` when it returns — including when the underlying
seek/read/readline raises, because `unlock` runs in the `finally` block —
so a failed read never leaves the multiplexer locked. -/
theorem read_with_lock_releases (st : MultiReaderState) (pos : Nat)
    (len? : Option Nat) (ioRaises : Bool) (h : st.is_locked = false) :
    (read_with_lock st pos len? ioRaises).2.is_locked = false := by
  cases ioRaises <;> simp [read_with_lock, h]

theorem read_with_lock_releases_witness :
    (⟨['a'], false, false⟩ : MultiReaderState).is_locked = false ∧
    (read_with_lock ⟨['a'], false, false⟩ 0 none true).2.is_locked = false :=
  ⟨rfl, read_with_lock_releases ⟨['a'], false, false⟩ 0 none true rfl⟩

/-! ### Lock acquisition with retry (util.py 671-676 and 717-724) -/

/-- One bare `wait_lock` attempt (util.py 719-724): raise `FileLockedError`
("Generator output file ... is locked") when `_is_locked` is already set,
else take the lock and return `True`. -/
inductive LockAttempt where
  | acquired
  | fileLockedError
deriving Repr, DecidableEq

def wait_lock_attempt (is_locked : Bool) : LockAttempt :=
  if is_locked then .fileLockedError else .acquired

/-- Outcome of the retried acquisition: the lock was taken, or the retry
budget ran out and the last `FileLockedError` was re-raised wrapped in the
retry library's `RetryError` (`wrap_exception=True`).  `elapsed` is
milliseconds since the first attempt. -/
inductive RetryOutcome where
  | acquired (elapsed : Nat)
  | retryError (elapsed : Nat)
deriving Repr, DecidableEq

/-- The `@retry(...)` decorator on `wait_lock` (util.py 717-718), modelling
the external retry library with the source's parameters: each attempt runs
`wait_lock`; on `FileLockedError` (`retry_on_exception=FileLockedError.retry`,
util.py 674-676), if the elapsed time has reached `stop_max_delay`
(10000 ms) the error is wrapped and re-raised, otherwise the wrapper sleeps
a random 5-20 ms (`wait_random_min=5`, `wait_random_max=20`) and tries
again.  `locked` gives the flag's state at each attempt, `waits` supplies
the random sleep durations, and the result is `none` only when `waits` is
too short to decide the run. -/
def retryWaitLock (locked : Nat → Bool) (waits : List Nat)
    (attempt elapsed : Nat) : Option RetryOutcome :=
  match wait_lock_attempt (locked attempt) with
  | .acquired => some (.acquired elapsed)
  | .fileLockedError =>
      if 10000 ≤ elapsed then some (.retryError elapsed)
      else
        match waits with
        | [] => none
        | w :: rest => retryWaitLock locked rest (attempt + 1) (elapsed + w)

theorem retryWaitLock_exhausts (waits : List Nat) :
    ∀ elapsed, (∀ w ∈ waits, 5 ≤ w ∧ w ≤ 20) → elapsed ≤ 10019 →
    10000 ≤ elapsed + 5 * waits.length →
    ∀ attempt, ∃ t, retryWaitLock (fun _ => true) waits attempt elapsed =
      some (.retryError t) ∧ t ≤ 10019 := by
  induction waits with
  | nil =>
      intro elapsed _ hle hbudget attempt
      have h10 : 10000 ≤ elapsed := by simpa using hbudget
      exact ⟨elapsed, by simp [retryWaitLock, wait_lock_attempt, h10], hle⟩
  | cons w rest ih =>
      intro elapsed hw hle hbudget attempt
      by_cases hstop : 10000 ≤ elapsed
      · exact ⟨elapsed, by simp [retryWaitLock, wait_lock_attempt, hstop], hle⟩
      · have hw1 := hw w (List.mem_cons_self w rest)
        have hlen : (w :: rest).length = rest.length + 1 := rfl
        have hle2 : elapsed + w ≤ 10019 := by omega
        have hb2 : 10000 ≤ elapsed + w + 5 * rest.length := by
          rw [hlen] at hbudget; omega
        obtain ⟨t, ht, htle⟩ := ih (elapsed + w)
          (fun x hx => hw x (List.mem_cons_of_mem w hx)) hle2 hb2 (attempt + 1)
        exact ⟨t, by simp [retryWaitLock, wait_lock_attempt, hstop, ht], htle⟩

/-- C7: `wait_lock` on a held lock raises `FileLockedError` immediately;
under persistent contention the acquisition is retried with 5-20 ms
randomized backoff only up to the 10 s budget (at least 2000 backoffs are
needed to exhaust it when each is at least 5 ms), after which the wrapped
failure surfaces no later than 10019 ms after the first attempt, rather
than retrying forever. -/
theorem wait_lock_retry_bounded :
    wait_lock_attempt true = .fileLockedError ∧
    ∀ waits : List Nat, (∀ w ∈ waits, 5 ≤ w ∧ w ≤ 20) →
      2000 ≤ waits.length →
      ∃ t, retryWaitLock (fun _ => true) waits 0 0 =
        some (.retryError t) ∧ t ≤ 10019 := by
  refine ⟨rfl, fun waits hw hlen => ?_⟩
  exact retryWaitLock_exhausts waits 0 hw (by omega) (by omega) 0

theorem wait_lock_retry_bounded_witness :
    (∀ w ∈ List.replicate 2000 5, 5 ≤ w ∧ w ≤ 20) ∧
    2000 ≤ (List.replicate 2000 5).length ∧
    (∃ t, retryWaitLock (fun _ => true) (List.replicate 2000 5) 0 0 =
      some (.retryError t) ∧ t ≤ 10019) := by
  have h1 : ∀ w ∈ List.replicate 2000 5, 5 ≤ w ∧ w ≤ 20 := by
    intro w hw
    rw [List.eq_of_mem_replicate hw]
    exact ⟨Nat.le_refl 5, by omega⟩
  have h2 : 2000 ≤ (List.replicate 2000 5).length := by
    rw [List.length_replicate]
  exact ⟨h1, h2, wait_lock_retry_bounded.2 (List.replicate 2000 5) h1 h2⟩

end YandexTank
